import Mathlib

/-!
Shallow embedding of the spwnmsg-core packet codec and snowflake
identifier generator, together with theorems checking the spec's claims
against the code.

Conventions of the embedding:
* Rust byte buffers (`[u8; N]`) become `List Nat` together with a length
  hypothesis where one is needed; bytes are `Nat` values below 256.
* Fallible Rust code returns `Option`/explicit result types; a Rust
  `panic!` / failing `unwrap()` is modelled as `none` (resp. a dedicated
  `panicked` constructor): the function aborts instead of returning.
* Rust `i64` arithmetic is embedded as `Int` with explicit two's
  complement wrapping (`% 2^64`) where overflow is possible; bitwise
  `&`, `|`, `^` on in-range `i64` values coincide with `Int.land`,
  `Int.lor`, `Int.xor` on the mathematical integers.
* The snowflake generator's clock (`Utc::now().timestamp_millis()`) is
  an oracle `clock : Nat → Int` indexed by a read counter, threaded
  through `generate` so that the number and order of clock reads in the
  source is preserved.
-/

namespace SpwnMsg

/-- Two's complement wrap of a mathematical integer into the `i64`
range `[-2^63, 2^63)`.  `9223372036854775808 = 2^63` and
`18446744073709551616 = 2^64`. -/
def wrap64 (x : Int) : Int :=
  (x + 9223372036854775808) % 18446744073709551616 - 9223372036854775808

/-- `i64` left shift `x << n`: high bits are discarded (Rust `<<` wraps
the value bits), so it is multiplication by `2^n` followed by the two's
complement wrap. -/
def shl64 (x : Int) (n : Nat) : Int :=
  wrap64 (x * 2 ^ n)

/-! ## Opcode (src/base_types/packet.rs) -/

/-- The `Opcode` enumeration from `src/base_types/packet.rs`, with
`repr(u8)` discriminants 0–6. -/
inductive Opcode
  | Ping
  | Ok
  | MemberJoin
  | MemberLeave
  | Message
  | Login
  | LoginOk
deriving DecidableEq

/-- `op as u8`: the `repr(u8)` discriminant of an `Opcode` value. -/
def Opcode.toByte : Opcode → Nat
  | .Ping => 0
  | .Ok => 1
  | .MemberJoin => 2
  | .MemberLeave => 3
  | .Message => 4
  | .Login => 5
  | .LoginOk => 6

/-- `impl From<u8> for Opcode` from `src/base_types/packet.rs`: matches
only the bytes 0–4; every other byte, including the declared
discriminants 5 (`Login`) and 6 (`LoginOk`), hits the wildcard arm,
which panics (modelled as `none`). -/
def Opcode.fromByte : Nat → Option Opcode
  | 0 => some .Ping
  | 1 => some .Ok
  | 2 => some .MemberJoin
  | 3 => some .MemberLeave
  | 4 => some .Message
  | _ => none

/-! ## PacketError and Packet (src/base_types/packet.rs) -/

/-- `enum PacketError` from `src/base_types/packet.rs` (the misspelling
`InvaidContent` is the source's). -/
inductive PacketError
  | InvaidContent (t : Opcode)
  | BadContent (t : Opcode)
deriving DecidableEq

/-- `pub struct Packet(pub BasePacket)` over `BasePacket = [u8; 1024]`. -/
structure Packet where
  buf : List Nat
deriving DecidableEq

/-- `Packet::new(inner)`: wraps the buffer, nothing else. -/
def Packet.new (inner : List Nat) : Packet :=
  ⟨inner⟩

/-- `Packet::op`: `self.0[1].into()`.  The `From<u8>` conversion panics
for bytes outside 0–4, hence the `Option`. -/
def Packet.op (p : Packet) : Option Opcode :=
  Opcode.fromByte (p.buf.getD 1 0)

/-- `Packet::version`: `self.0[0]`. -/
def Packet.version (p : Packet) : Nat :=
  p.buf.getD 0 0

/-- Rust's `Vec<u8>::try_into::<[u8; n]>()`: succeeds exactly when the
length matches. -/
def tryIntoArray (n : Nat) (l : List Nat) : Option (List Nat) :=
  if l.length = n then some l else none

/-- Outcome of `Packet::set_content`: `Ok(())` with the mutated packet,
`Err(PacketError)`, or an abort of the process (a `panic`). -/
inductive SetContentResult
  | ok (p : Packet)
  | err (e : PacketError)
  | panicked
deriving DecidableEq

/-- `Packet::set_content` from `src/base_types/packet.rs`.
`self.0[1].into()` panics for opcode bytes outside 0–4.  In the
`Message` arm the source builds `[&self.0[..20], &content.0].concat()`
(20 + 994 = 1014 bytes) and calls `.try_into::<[u8; 1024]>().unwrap()`
on it; the length check of `try_into` is embedded faithfully by
`tryIntoArray`. -/
def Packet.set_content (p : Packet) (content : List Nat) : SetContentResult :=
  match Opcode.fromByte (p.buf.getD 1 0) with
  | none => .panicked
  | some Opcode.Message =>
      let n := p.buf.take 20
      match tryIntoArray 1024 (n ++ content) with
      | some b => .ok ⟨b⟩
      | none => .panicked
  | some t => .err (.InvaidContent t)

/-! ## PacketMessageContent::from_str (src/base_types/packet.rs) -/

/-- Outcome of `PacketMessageContent::from_str` when it returns: the 994
content bytes, or a `PacketError`. -/
inductive FromStrResult
  | ok (content : List Nat)
  | err (e : PacketError)
deriving DecidableEq

/-- `impl FromStr for PacketMessageContent`, on the UTF-8 bytes
`s.as_bytes()` of the input: reject if longer than 994, else pad with
`[0u8].repeat(994 - b.len())` and convert the concatenation into
`[u8; 994]` (the final `unwrap` of that conversion is the outer
`Option`). -/
def PacketMessageContent.from_str (s : List Nat) : Option FromStrResult :=
  let b := s
  if 994 < b.length then some (.err (.BadContent .Message))
  else
    let re := List.replicate (994 - b.length) 0
    match tryIntoArray 994 (b ++ re) with
    | some uw => some (.ok uw)
    | none => none

/-! ## Snowflake (src/snowflake.rs) -/

/-- `pub struct Snowflake` from `src/snowflake.rs`; `time` is the
contents of the `Arc<Mutex<i64>>` holding the last emitted timestamp. -/
structure Snowflake where
  epoch : Int
  worker_id : Int
  datacenter_id : Int
  sequence : Int
  time : Int
deriving DecidableEq

/-- `impl Default for Snowflake`. -/
def Snowflake.default : Snowflake :=
  { epoch := 1573948800, worker_id := 1, datacenter_id := 1
    sequence := 0, time := 0 }

/-- `Snowflake::new(epoch, worker_id, datacenter_id)`: the body is
`Default::default()`, so every argument is ignored. -/
def Snowflake.new (epoch worker_id datacenter_id : Int) : Snowflake :=
  Snowflake.default

/-- `(timestamp << 22) | (worker_id << 17) | (datacenter_id << 12) | sequence`
on `i64`, exactly as composed at the end of `Snowflake::generate`. -/
def snowflakeId (timestamp worker_id datacenter_id sequence : Int) : Int :=
  Int.lor (Int.lor (Int.lor (shl64 timestamp 22) (shl64 worker_id 17))
    (shl64 datacenter_id 12)) sequence

/-- `Snowflake::generate` from `src/snowflake.rs`.  The clock oracle
`clock` stands for successive reads of
`Utc::now().timestamp_millis()`; `k` counts reads made so far and the
returned counter records how many reads this call performed.  The body
mirrors the source: one clock read; if it equals the stored timestamp,
the sequence is advanced by `(sequence + 1) & (-1 ^ (-1 << 12))` and,
when that wraps to 0 (and `timestamp <= last`, trivially true here),
the clock is re-read exactly once; otherwise the sequence resets to 0.
The final timestamp is stored and the id composed.  The function is
total: the source has no error path. -/
def Snowflake.generate (sf : Snowflake) (clock : Nat → Int) (k : Nat) :
    Int × Snowflake × Nat :=
  let last_timestamp := sf.time
  let timestamp := clock k - sf.epoch
  if timestamp = last_timestamp then
    let sequence := Int.land (sf.sequence + 1) (Int.xor (-1) (shl64 (-1) 12))
    if sequence = 0 ∧ timestamp ≤ last_timestamp then
      let timestamp2 := clock (k + 1) - sf.epoch
      (snowflakeId timestamp2 sf.worker_id sf.datacenter_id sequence,
        { sf with sequence := sequence, time := timestamp2 }, k + 2)
    else
      (snowflakeId timestamp sf.worker_id sf.datacenter_id sequence,
        { sf with sequence := sequence, time := timestamp }, k + 1)
  else
    (snowflakeId timestamp sf.worker_id sf.datacenter_id 0,
      { sf with sequence := 0, time := timestamp }, k + 1)

/-!
## Theorems for the claims
-/

set_option maxRecDepth 10000

/-- Claim C1: the spec says a buffer whose byte 1 is outside 0–6 decodes
to an `UnknownOpcode` error and never aborts.  The code instead panics:
`impl From<u8> for Opcode` has a `panic` wildcard arm (here `none`),
reached for every byte above 6 — and `PacketError` has no
`UnknownOpcode`-like variant at all. -/
theorem fromByte_out_of_range_panics (v : Nat) (h : 6 < v) :
    Opcode.fromByte v = none := by
  obtain ⟨n, rfl⟩ : ∃ n, v = n + 7 := ⟨v - 7, by omega⟩
  rfl

theorem fromByte_out_of_range_panics_witness :
    6 < 7 ∧ Opcode.fromByte 7 = none :=
  ⟨by decide, fromByte_out_of_range_panics 7 (by decide)⟩

/-- Claim C2: the spec says every opcode with discriminant 0–6 is read
back by `Packet::op` from a buffer carrying that discriminant at byte 1.
`Login` has discriminant 5 (and `LoginOk` 6), yet a 1024-byte buffer
with byte 1 = 5 makes `Packet::new(b).op()` panic (`none`) instead of
returning `Login`: the `From<u8>` impl only covers 0–4. -/
theorem op_login_discriminant_panics :
    Opcode.toByte Opcode.Login = 5 ∧ Opcode.toByte Opcode.LoginOk = 6 ∧
      (Packet.new ((List.replicate 1024 0).set 1 5)).op = none ∧
      (Packet.new ((List.replicate 1024 0).set 1 6)).op = none := by
  refine ⟨rfl, rfl, rfl, rfl⟩

/-- Claim C3: the spec says a clock reading strictly earlier than the
last recorded timestamp makes `generate()` fail with `ClockRegression`
and leave the state unchanged.  The code has no error path at all: with
last timestamp 100 and the clock reading 50, `generate` returns the
identifier `50 << 22 | 1 << 17 | 1 << 12 | 0 = 209850368` and rewinds
the stored timestamp to 50. -/
theorem generate_clock_regression_emits_id :
    Snowflake.generate
        { epoch := 0, worker_id := 1, datacenter_id := 1
          sequence := 0, time := 100 }
        (fun _ => 50) 0 =
      (209850368,
        { epoch := 0, worker_id := 1, datacenter_id := 1
          sequence := 0, time := 50 }, 1) := by
  decide

/-- Claim C4: the spec says successive successful `generate()` calls
yield strictly increasing identifiers even within one millisecond.  With
a constant (non-regressing) clock stuck at 5 and the sequence at 4094,
the first call returns 21110783 (sequence 4095) and the second call
wraps the sequence to 0, re-reads the still-stuck clock once, and
returns 21106688 < 21110783: the values decrease. -/
theorem generate_same_millisecond_not_monotonic :
    Snowflake.generate
        { epoch := 0, worker_id := 1, datacenter_id := 1
          sequence := 4094, time := 5 }
        (fun _ => 5) 0 =
      (21110783,
        { epoch := 0, worker_id := 1, datacenter_id := 1
          sequence := 4095, time := 5 }, 1) ∧
    Snowflake.generate
        { epoch := 0, worker_id := 1, datacenter_id := 1
          sequence := 4095, time := 5 }
        (fun _ => 5) 1 =
      (21106688,
        { epoch := 0, worker_id := 1, datacenter_id := 1
          sequence := 0, time := 5 }, 3) ∧
    (21106688 : Int) < 21110783 := by
  refine ⟨by decide, by decide, by decide⟩

/-- Claim C5: the spec says `set_message_content` succeeds on a frame
whose opcode is `Message`, overwriting only the content region.  On the
all-zero frame with byte 1 = 4 (`Message`) the code instead aborts: it
concatenates the first 20 buffer bytes with the 994 content bytes (1014
bytes in total) and `try_into::<[u8; 1024]>().unwrap()` panics on the
length mismatch — the success path is unreachable for every content. -/
theorem set_content_message_panics :
    Packet.set_content (Packet.new ((List.replicate 1024 0).set 1 4))
      (List.replicate 994 0) = SetContentResult.panicked := by
  rfl

/-- Claim C6: `from_str` (the content encoder) fails with the
content-too-long error exactly when the input byte length exceeds 994;
on success it returns the input bytes padded with zeros to exactly 994
bytes.  (The encoder takes no frame, so no frame bytes can be mutated
on failure.) -/
theorem from_str_spec (s : List Nat) :
    (994 < s.length →
      PacketMessageContent.from_str s =
        some (FromStrResult.err (PacketError.BadContent Opcode.Message))) ∧
    (s.length ≤ 994 →
      PacketMessageContent.from_str s =
        some (FromStrResult.ok (s ++ List.replicate (994 - s.length) 0)) ∧
      (s ++ List.replicate (994 - s.length) 0).length = 994) := by
  have hlen : (s ++ List.replicate (994 - s.length) 0).length
      = s.length + (994 - s.length) := by
    simp
  constructor
  · intro h
    unfold PacketMessageContent.from_str
    rw [if_pos h]
  · intro h
    have h994 : (s ++ List.replicate (994 - s.length) 0).length = 994 := by
      rw [hlen]; omega
    refine ⟨?_, h994⟩
    unfold PacketMessageContent.from_str tryIntoArray
    rw [if_neg (by omega)]
    simp [h994]

theorem from_str_spec_witness :
    ([104, 105] : List Nat).length ≤ 994 ∧
      PacketMessageContent.from_str [104, 105] =
        some (FromStrResult.ok ([104, 105] ++ List.replicate 992 0)) :=
  ⟨by decide, ((from_str_spec [104, 105]).2 (by decide)).1⟩

/-- Claim C7: the spec's round trip encode → write into a `Message`
frame → read back cannot complete on this code: encoding "hello"
(bytes 104 101 108 108 111) succeeds, but writing the encoded content
with `set_content` into a frame whose opcode byte is 4 (`Message`)
panics at the `try_into::<[u8; 1024]>().unwrap()` length mismatch, so
there is never a frame to read content back from. -/
theorem roundtrip_breaks_at_set_content :
    PacketMessageContent.from_str [104, 101, 108, 108, 111] =
      some (FromStrResult.ok
        ([104, 101, 108, 108, 111] ++ List.replicate 989 0)) ∧
    Packet.set_content (Packet.new ((List.replicate 1024 0).set 1 4))
      ([104, 101, 108, 108, 111] ++ List.replicate 989 0)
        = SetContentResult.panicked := by
  refine ⟨rfl, rfl⟩

/-- Claim C8: wrapping any 1024-byte buffer with `Packet::new` succeeds
and is lossless: `Packet::new` is a total constructor storing the buffer
unchanged, no matter its contents; accessors such as `Packet.op` do the
checking. -/
theorem packet_new_never_fails (b : List Nat) (h : b.length = 1024) :
    (Packet.new b).buf = b ∧ (Packet.new b).op = Opcode.fromByte (b.getD 1 0) :=
  ⟨rfl, rfl⟩

theorem packet_new_never_fails_witness :
    (List.replicate 1024 0).length = 1024 ∧
      (Packet.new (List.replicate 1024 0)).buf = List.replicate 1024 0 :=
  ⟨by simp, (packet_new_never_fails (List.replicate 1024 0) (by simp)).1⟩

/-- Claim C9: the spec says that when the sequence wraps the generator
re-reads the clock repeatedly until it advances past the last timestamp
and only then returns.  The code re-reads exactly once: with the clock
frozen at 5 and the sequence at 4095, `generate` performs 2 clock reads
in total and returns at the unadvanced timestamp 5 with sequence 0 —
duplicating the identifier 21106688 that sequence 0 of that millisecond
already produced. -/
theorem generate_wrap_rereads_clock_once :
    Snowflake.generate
        { epoch := 0, worker_id := 1, datacenter_id := 1
          sequence := 4095, time := 5 }
        (fun _ => 5) 0 =
      (21106688,
        { epoch := 0, worker_id := 1, datacenter_id := 1
          sequence := 0, time := 5 }, 2) := by
  decide

/-- Claim C10: `Snowflake::new(epoch, worker_id, datacenter_id)` ignores
all three arguments and returns `Default::default()`: epoch 1573948800,
worker id 1, datacenter id 1, sequence 0. -/
theorem snowflake_new_ignores_arguments :
    ∀ epoch worker_id datacenter_id : Int,
      Snowflake.new epoch worker_id datacenter_id = Snowflake.default ∧
      (Snowflake.new epoch worker_id datacenter_id).epoch = 1573948800 ∧
      (Snowflake.new epoch worker_id datacenter_id).worker_id = 1 ∧
      (Snowflake.new epoch worker_id datacenter_id).datacenter_id = 1 ∧
      (Snowflake.new epoch worker_id datacenter_id).sequence = 0 :=
  fun _ _ _ => ⟨rfl, rfl, rfl, rfl, rfl⟩

end SpwnMsg
